import Mathlib

/-!
# Verification of the geoauth-backend core

Shallow embedding of the core logic of the geoauth-backend repository:
IP normalization and classification (`src/utils/ip.ts`, `src/utils/validate.ts`),
the geo resolver (`src/services/geo.service.ts`), the history orchestrator
(`src/services/history.service.ts`, `src/repositories/history.repo.ts`),
the token service (`src/utils/jwt.ts`) and the auth service
(`src/services/auth.service.ts`).

JavaScript strings are modelled as `List Char`.  External collaborators
(the ipinfo HTTP client, the persistence store, `jsonwebtoken`, bcrypt)
are modelled as function parameters, so theorems quantify over every
possible collaborator behavior.  TypeScript exceptions are modelled with
`Except`.
-/

namespace GeoAuth

/-- JavaScript strings, modelled as lists of characters. -/
abbrev JStr := List Char

/-- The whitespace characters stripped by JavaScript's `String.prototype.trim`
(ASCII whitespace plus no-break space; further exotic Unicode space code points
behave identically for every proof below, which only depends on `jsWhitespace`
being some fixed predicate). -/
def jsWhitespace (c : Char) : Bool :=
  c = ' ' || c = '\t' || c = '\n' || c = '\r' || c = '\x0b' || c = '\x0c' || c = ' '

/-- JavaScript `s.trim()`: drop whitespace from both ends. -/
def jsTrim (s : JStr) : JStr :=
  List.rdropWhile jsWhitespace (List.dropWhile jsWhitespace s)

/-- JavaScript `s.toLowerCase()` (character-wise; only ASCII letters matter
for the prefix tests below). -/
def jsToLower (s : JStr) : JStr :=
  s.map Char.toLower

/-- JavaScript `s.startsWith(p)`. -/
def jsStartsWith (s p : JStr) : Bool :=
  s.take p.length == p

/-- JavaScript `s.endsWith(p)`. -/
def jsEndsWith (s p : JStr) : Bool :=
  jsStartsWith s.reverse p.reverse

/-- The character class `\d` of the regex `/^\d+$/`. -/
def jsIsDigit (c : Char) : Bool :=
  '0' ≤ c && c ≤ '9'

/-- `ip.slice(0, lastColon)` / port-suffix stripping, the body of the
`if (ip.includes(".") && ip.includes(":"))` block of `normalizeIp`
(src/src/utils/ip.ts lines 37-43): if the characters after the last `:`
are a non-empty digit string (`/^\d+$/.test(maybePort)`), drop them and
the colon; otherwise keep the string.  Only ever applied to strings that
contain a `:`. -/
def stripV4Port (ip : JStr) : JStr :=
  let rev := ip.reverse
  let portRev := rev.takeWhile (fun c => c ≠ ':')
  if portRev ≠ [] && portRev.all jsIsDigit then
    (rev.drop (portRev.length + 1)).reverse
  else ip

/-- Statement `if (ip.startsWith("[") && ip.endsWith("]")) ip =
ip.slice(1, -1).trim()` (src/src/utils/ip.ts lines 18-20). -/
def normBracket (ip : JStr) : JStr :=
  if jsStartsWith ip ['['] && jsEndsWith ip [']'] then
    jsTrim ((ip.drop 1).dropLast)
  else ip

/-- Statement `if (lower.startsWith("::ffff:")) ip =
ip.slice("::ffff:".length)` (src/src/utils/ip.ts lines 24-27). -/
def normMapped (ip : JStr) : JStr :=
  if jsStartsWith (jsToLower ip) ("::ffff:".toList) then
    ip.drop ("::ffff:".toList).length
  else ip

/-- Statements `const zoneIndex = ip.indexOf("%"); if (zoneIndex !== -1)
ip = ip.slice(0, zoneIndex)` (src/src/utils/ip.ts lines 30-33). -/
def normZone (ip : JStr) : JStr :=
  ip.takeWhile (fun c => c ≠ '%')

/-- The `if (ip.includes(".") && ip.includes(":"))` port-stripping block
(src/src/utils/ip.ts lines 37-43). -/
def normPort (ip : JStr) : JStr :=
  if ip.contains '.' && ip.contains ':' then stripV4Port ip else ip

/-- Translation of `normalizeIp` from src/src/utils/ip.ts (lines 11-47).
`none` as input models a non-string argument (`typeof raw !== "string"`).
Each reassignment of the mutable `ip` is one named step, in source
order: trim; strip surrounding brackets (and re-trim); strip a
case-insensitive `::ffff:` prefix; cut at the first `%` (zone index);
strip an IPv4-style port when both `.` and `:` occur; final trim; empty
result becomes `null`. -/
def normalizeIp (raw : Option JStr) : Option JStr :=
  match raw with
  | none => none
  | some s =>
    let ip := jsTrim s
    if ip.isEmpty then none else
    let ip := normBracket ip
    let ip := normMapped ip
    let ip := normZone ip
    let ip := normPort ip
    let ip := jsTrim ip
    if ip.isEmpty then none else some ip

/-- Translation of `normalizeIpInput` from src/src/utils/validate.ts
(lines 92-124); its body is character-for-character identical to
`normalizeIp` from src/src/utils/ip.ts. -/
def normalizeIpInput (raw : Option JStr) : Option JStr :=
  match raw with
  | none => none
  | some s =>
    let ip := jsTrim s
    if ip.isEmpty then none else
    let ip := normBracket ip
    let ip := normMapped ip
    let ip := normZone ip
    let ip := normPort ip
    let ip := jsTrim ip
    if ip.isEmpty then none else some ip

/-- Digit-string value in base 10. -/
def digitsVal (l : JStr) : Nat :=
  l.foldl (fun a c => a * 10 + (c.toNat - '0'.toNat)) 0

/-- JavaScript numbers as far as this codebase observes them: a finite
value (as a rational) or one of the non-finite values, which
`Number.isFinite` rejects. -/
inductive JSNum where
  | fin (q : ℚ)
  | nan
  | inf
  | ninf
deriving DecidableEq, Repr

/-- Modelled from the spec: JavaScript's `Number(string)` coercion, a
platform primitive (used at src/src/utils/ip.ts line 105 on a dot-separated
component of an IP string).  The decimal fragment of the JS numeric-string
grammar is modelled: optional sign, digits with an optional fraction;
the empty/whitespace string coerces to `0`; anything else (letters, hex,
exponents, `Infinity`) is mapped to `NaN`, which is all the 172-branch
check below can observe of it (`Number.isNaN`). -/
def jsNumber (s : JStr) : JSNum :=
  let t := jsTrim s
  if t.isEmpty then .fin 0 else
  let (neg, body) : Bool × JStr :=
    match t with
    | '-' :: rest => (true, rest)
    | '+' :: rest => (false, rest)
    | _ => (false, t)
  let signed : ℚ → JSNum := fun q => .fin (if neg then -q else q)
  let intPart := body.takeWhile jsIsDigit
  let rest := body.drop intPart.length
  match rest with
  | [] => if intPart.isEmpty then .nan else signed (digitsVal intPart)
  | '.' :: frac =>
    if frac.all jsIsDigit && !(intPart.isEmpty && frac.isEmpty) then
      signed ((digitsVal intPart : ℚ) + (digitsVal frac : ℚ) / (10 : ℚ) ^ frac.length)
    else .nan
  | _ => .nan

/-- `Number.isNaN`. -/
def jsIsNaN : JSNum → Bool
  | .nan => true
  | _ => false

/-- Translation of `isPrivateIp` from src/src/utils/ip.ts (lines 92-118):
lowercases and trims, then matches the loopback literals and the textual
prefixes of the private ranges; the 172 branch splits on `.` and coerces
the second component with `Number`. -/
def isPrivateIp (ip : JStr) : Bool :=
  let v := jsToLower (jsTrim ip)
  if v == "127.0.0.1".toList || v == "::1".toList then true
  else if jsStartsWith v ("10.".toList) then true
  else if jsStartsWith v ("192.168.".toList) then true
  else if jsStartsWith v ("172.".toList) &&
      (let second := match (v.splitOn '.').get? 1 with
        | some part => jsNumber part
        | none => JSNum.nan
       match second with
       | .fin q => decide (16 ≤ q) && decide (q ≤ 31)
       | _ => false) then true
  else if jsStartsWith v ("169.254.".toList) then true
  else if jsStartsWith v ("fc".toList) || jsStartsWith v ("fd".toList) then true
  else if jsStartsWith v ("fe8".toList) || jsStartsWith v ("fe9".toList) ||
      jsStartsWith v ("fea".toList) || jsStartsWith v ("feb".toList) then true
  else false

/-! ## Spec-side IP syntax and reserved ranges

The spec (§4.1) delegates IP-literal validation to "the platform's
canonical IP-literal validator (RFC 4291/791 syntax)" — Node's
`net.isIP`, which is not part of the repository's sources.  The parsers
below are therefore modelled from the spec: RFC 791 dotted-quad syntax
(four decimal octets, no leading zeros, each ≤ 255) and RFC 4291 IPv6
syntax (colon-separated 16-bit hex groups, at most one `::` compression,
optional embedded dotted-quad in the final position). -/

/-- Value of a hex digit, or `none` (code points: 0-9 are 48-57,
a-f are 97-102, A-F are 65-70). -/
def hexDigitVal (c : Char) : Option Nat :=
  let n := c.toNat
  if 48 ≤ n && n ≤ 57 then some (n - 48)
  else if 97 ≤ n && n ≤ 102 then some (n - 87)
  else if 65 ≤ n && n ≤ 70 then some (n - 55)
  else none

/-- Modelled from the spec: one decimal octet of an RFC 791 dotted quad
(1-3 digits, no leading zero, value ≤ 255). -/
def parseV4Octet (g : JStr) : Option Nat :=
  if g ≠ [] && g.length ≤ 3 && g.all jsIsDigit && (g.length == 1 || g.head? ≠ some '0') then
    let n := digitsVal g
    if n ≤ 255 then some n else none
  else none

/-- Modelled from the spec: RFC 791 dotted-quad IPv4 literal. -/
def parseIPv4 (s : JStr) : Option (Nat × Nat × Nat × Nat) :=
  match (s.splitOn '.').mapM parseV4Octet with
  | some [a, b, c, d] => some (a, b, c, d)
  | _ => none

/-- Modelled from the spec: one 16-bit hex group of an RFC 4291 IPv6
literal (1-4 hex digits). -/
def parseHextet (g : JStr) : Option Nat :=
  if g ≠ [] && g.length ≤ 4 then
    (g.mapM hexDigitVal).map (List.foldl (fun a d => a * 16 + d) 0)
  else none

/-- Modelled from the spec: a run of IPv6 groups in which only the final
group may be an embedded dotted quad (contributing two 16-bit words). -/
def parseGroupsTail : List JStr → Option (List Nat)
  | [] => some []
  | [g] =>
    if g.contains '.' then
      match parseIPv4 g with
      | some (a, b, c, d) => some [a * 256 + b, c * 256 + d]
      | none => none
    else (parseHextet g).map (fun w => [w])
  | g :: rest => do
    let h ← parseHextet g
    let t ← parseGroupsTail rest
    pure (h :: t)

/-- Modelled from the spec: RFC 4291 IPv6 literal, parsed to its eight
16-bit words.  Handles the four placements of the `::` compression
(whole address, leading, trailing, interior) via the empty pieces that
splitting on `:` produces. -/
def parseIPv6 (s : JStr) : Option (List Nat) :=
  let gs := s.splitOn ':'
  let isEmptyG : JStr → Bool := fun g => g.isEmpty
  if gs == [[], [], []] then some (List.replicate 8 0)
  else if gs.countP isEmptyG == 0 then
    match parseGroupsTail gs with
    | some ws => if ws.length == 8 then some ws else none
    | none => none
  else if gs.length ≥ 3 && gs.head? == some [] && gs.get? 1 == some [] then
    let rest := gs.drop 2
    if rest.countP isEmptyG == 0 then
      match parseGroupsTail rest with
      | some ws =>
        if ws.length ≤ 7 then some (List.replicate (8 - ws.length) 0 ++ ws) else none
      | none => none
    else none
  else if gs.length ≥ 3 && gs.getLast? == some [] && gs.dropLast.getLast? == some [] then
    let left := gs.dropLast.dropLast
    if left.countP isEmptyG == 0 then
      match left.mapM parseHextet with
      | some ws =>
        if ws.length ≤ 7 then some (ws ++ List.replicate (8 - ws.length) 0) else none
      | none => none
    else none
  else if gs.countP isEmptyG == 1 && gs.head? ≠ some [] && gs.getLast? ≠ some [] then
    let i := gs.findIdx isEmptyG
    let left := gs.take i
    let right := gs.drop (i + 1)
    match left.mapM parseHextet, parseGroupsTail right with
    | some lw, some rw =>
      if lw.length + rw.length ≤ 7 then
        some (lw ++ List.replicate (8 - lw.length - rw.length) 0 ++ rw)
      else none
    | _, _ => none
  else none

/-- Spec-side classification, following the spec's words (§4.1): private
is exactly loopback (`127.0.0.1`, `::1`), the RFC1918 blocks `10.0.0.0/8`,
`172.16.0.0/12`, `192.168.0.0/16`, link-local `169.254.0.0/16` and
`fe80::/10`, and IPv6 unique-local `fc00::/7`; every other syntactically
valid address is public; a syntactically invalid string is `none`. -/
def specIsPrivate (s : JStr) : Option Bool :=
  match parseIPv4 s with
  | some (a, b, c, d) =>
    some (decide ((a, b, c, d) = (127, 0, 0, 1)) || decide (a = 10) ||
      (decide (a = 172) && decide (16 ≤ b) && decide (b ≤ 31)) ||
      (decide (a = 192) && decide (b = 168)) ||
      (decide (a = 169) && decide (b = 254)))
  | none =>
    match parseIPv6 s with
    | some ws =>
      let g0 := ws.headD 0
      some (decide (ws = [0, 0, 0, 0, 0, 0, 0, 1]) ||
        (decide (0xfe80 ≤ g0) && decide (g0 ≤ 0xfebf)) ||
        (decide (0xfc00 ≤ g0) && decide (g0 ≤ 0xfdff)))
    | none => none

/-! ## JavaScript values and the geo resolver (src/src/services/geo.service.ts) -/

/-- JSON-like JavaScript values, as the defensive coercion layer of the
geo resolver can observe them.  The external collaborator may hand back
any of these. -/
inductive JSValue where
  | vNull
  | vUndefined
  | vBool (b : Bool)
  | vNum (n : JSNum)
  | vStr (s : JStr)
  | vArr (xs : List JSValue)
  | vObj (fields : List (JStr × JSValue))

/-- JavaScript truthiness test (`!raw` is `isFalsy raw`). -/
def isFalsy : JSValue → Bool
  | .vNull => true
  | .vUndefined => true
  | .vBool b => !b
  | .vNum n => n == .fin 0 || n == .nan
  | .vStr s => s.isEmpty
  | .vArr _ => false
  | .vObj _ => false

/-- `typeof v === "object"` (true for `null`, arrays and plain objects). -/
def typeofObject : JSValue → Bool
  | .vNull => true
  | .vArr _ => true
  | .vObj _ => true
  | _ => false

/-- Property read `v[k]` on a value already known to be a non-null
object: a missing key (and any key on an array, whose named properties
are absent here) yields `undefined`.  The `vNull`/`vUndefined` cases are
unreachable at every use site (each is behind a falsiness or typeof
guard); JavaScript would throw there. -/
def jsGet (v : JSValue) (k : JStr) : JSValue :=
  match v with
  | .vObj fs => ((fs.find? (fun p => p.1 == k)).map Prod.snd).getD .vUndefined
  | _ => .vUndefined

/-- Translation of `asString` from src/src/services/geo.service.ts
(lines 33-35): non-empty-after-trim strings pass (trimmed), everything
else is `null`. -/
def asString (v : JSValue) : Option JStr :=
  match v with
  | .vStr s => if (jsTrim s).isEmpty then none else some (jsTrim s)
  | _ => none

/-- Translation of `asNumber` from src/src/services/geo.service.ts
(lines 37-44): finite numbers pass; non-empty strings are coerced with
`Number` and pass when finite; everything else is `null`.  The `Number`
coercion is the platform primitive, supplied as the parameter
`numParse`. -/
def asNumber (numParse : JStr → JSNum) (v : JSValue) : Option ℚ :=
  match v with
  | .vNum (.fin q) => some q
  | .vNum _ => none
  | .vStr s =>
    if (jsTrim s).isEmpty then none
    else match numParse s with
      | .fin q => some q
      | _ => none
  | _ => none

/-- The `GeoSnapshot` type of src/src/services/geo.service.ts (lines
8-31).  `source` is the literal type `"ipinfo"`, kept as a string field
fixed by construction; `resolvedAt` is the ISO timestamp string. -/
structure GeoSnapshot where
  ip : JStr
  network : Option JStr
  city : Option JStr
  region : Option JStr
  regionCode : Option JStr
  country : Option JStr
  countryCode : Option JStr
  continent : Option JStr
  continentCode : Option JStr
  latitude : Option ℚ
  longitude : Option ℚ
  timezone : Option JStr
  postalCode : Option JStr
  source : JStr
  resolvedAt : JStr
deriving DecidableEq

/-- The body of the `try` block of `resolve` (src/src/services/geo.service.ts
lines 52-91).  `lookup` is the external ipinfo collaborator (it may
throw — error type `ε` — or return an arbitrary value), `numParse` the
platform `Number` coercion and `now` the ISO rendering of the current
time (`new Date().toISOString()`).  An `ε` result models an exception
escaping the block. -/
def resolveTry {ε : Type} (lookup : JStr → Except ε JSValue)
    (numParse : JStr → JSNum) (now : JStr) (ip : Option JStr) :
    Except ε (Option GeoSnapshot) :=
  match ip with
  | none => .ok none
  | some s =>
    if s.isEmpty then .ok none
    else if isPrivateIp s then .ok none
    else match lookup s with
      | .error e => .error e
      | .ok raw =>
        if isFalsy raw || !typeofObject raw then .ok none
        else .ok (some {
          ip := s
          network := asString (jsGet raw ("network".toList))
          city := asString (jsGet raw ("city".toList))
          region := asString (jsGet raw ("region".toList))
          regionCode := asString (jsGet raw ("region_code".toList))
          country := asString (jsGet raw ("country".toList))
          countryCode := asString (jsGet raw ("country_code".toList))
          continent := asString (jsGet raw ("continent".toList))
          continentCode := asString (jsGet raw ("continent_code".toList))
          latitude := asNumber numParse (jsGet raw ("latitude".toList))
          longitude := asNumber numParse (jsGet raw ("longitude".toList))
          timezone := asString (jsGet raw ("timezone".toList))
          postalCode := asString (jsGet raw ("postal_code".toList))
          source := "ipinfo".toList
          resolvedAt := now })

/-- Translation of `geoService.resolve` (src/src/services/geo.service.ts
lines 51-95): the whole body sits in `try { ... } catch { return null }`,
so any exception of the body becomes a `null` result. -/
def resolve {ε : Type} (lookup : JStr → Except ε JSValue)
    (numParse : JStr → JSNum) (now : JStr) (ip : Option JStr) :
    Except ε (Option GeoSnapshot) :=
  match resolveTry lookup numParse now ip with
  | .error _ => .ok none
  | .ok v => .ok v

/-! ## History orchestrator (src/src/services/history.service.ts) and its
repository (src/repositories/history.repo.ts) -/

/-- One `SearchHistory` row as selected by the repository. -/
structure HistoryRow where
  id : JStr
  userId : JStr
  ip : JStr
  geo : Option GeoSnapshot
  createdAt : ℤ
deriving DecidableEq

/-- Argument record of `historyRepo.createSearchHistory`. -/
structure CreateSearchHistoryInput where
  userId : JStr
  ip : JStr
  geo : Option GeoSnapshot

/-- Translation of `searchAndRecord` (src/src/services/history.service.ts
lines 20-38): resolve geo, then `try { await historyRepo.createSearchHistory }
catch { /* ignore */ }`, then return the geo value.  `create` is the
persistence collaborator, of arbitrary behavior (any result `ρ`, any
thrown error `ε₂`). -/
def searchAndRecord {ε ε₂ ρ : Type} (lookup : JStr → Except ε JSValue)
    (numParse : JStr → JSNum) (now : JStr)
    (create : CreateSearchHistoryInput → Except ε₂ ρ)
    (userId ip : JStr) : Except ε (Option GeoSnapshot) :=
  match resolve lookup numParse now (some ip) with
  | .error e => .error e
  | .ok geo =>
    match create ⟨userId, ip, geo⟩ with
    | .ok _ => .ok geo
    | .error _ => .ok geo

/-- The `take` computation of `listSearchHistories`
(src/repositories/history.repo.ts lines 41-44):
`typeof limit === "number" && Number.isFinite(limit)
  ? Math.max(1, Math.min(limit, 100)) : 50`. -/
def computeTake (limit : Option JSNum) : ℚ :=
  match limit with
  | some (.fin q) => max 1 (min q 100)
  | _ => 50

/-- The `orderBy: { createdAt: "desc" }` ordering: most recent first. -/
def createdDesc (a b : HistoryRow) : Prop :=
  b.createdAt ≤ a.createdAt

instance : DecidableRel createdDesc :=
  fun a b => Int.decLe b.createdAt a.createdAt

instance : IsTotal HistoryRow createdDesc :=
  ⟨fun a b => le_total b.createdAt a.createdAt⟩

instance : IsTrans HistoryRow createdDesc :=
  ⟨fun _ _ _ hab hbc => le_trans hbc hab⟩

/-- Translation of `listSearchHistories` (src/repositories/history.repo.ts
lines 38-57) over an explicit store: Prisma's
`findMany({where: {userId}, orderBy: {createdAt: "desc"}, take})` is the
user's rows, sorted by creation time descending, truncated to `take`
entries.  (Prisma requires an integral `take`; the floor conversion is
exact on every integral limit.) -/
def listSearchHistories (store : List HistoryRow) (userId : JStr)
    (limit : Option JSNum) : List HistoryRow :=
  (List.insertionSort createdDesc
      (store.filter (fun r => r.userId == userId))).take (⌊computeTake limit⌋).toNat

/-- Translation of `listByUser` (src/src/services/history.service.ts lines
40-46): forwards to the repository. -/
def listByUser (store : List HistoryRow) (userId : JStr)
    (limit : Option JSNum) : List HistoryRow :=
  listSearchHistories store userId limit

/-- Translation of `deleteMany` (src/src/services/history.service.ts lines
48-56): the empty id list short-circuits to 0 before the repository
collaborator `repoDelete` is consulted. -/
def deleteMany {ε : Type} (repoDelete : JStr → List JStr → Except ε Nat)
    (userId : JStr) (ids : List JStr) : Except ε Nat :=
  if ids.isEmpty then .ok 0 else repoDelete userId ids

/-- Translation of `deleteSearchHistories` (src/repositories/history.repo.ts
lines 59-72) over an explicit store: Prisma's
`deleteMany({where: {userId, id: {in: ids}}})` returns the count of rows
matching both conditions. -/
def deleteSearchHistories (store : List HistoryRow) (userId : JStr)
    (ids : List JStr) : Nat :=
  if ids.isEmpty then 0
  else (store.filter (fun r => r.userId == userId && ids.contains r.id)).length

/-! ## Token service (src/utils/jwt.ts) -/

/-- The `AppError` of src/src/middleware/error.middleware.ts, as far as a
caller can observe it: HTTP status, message, optional machine code. -/
structure AppError where
  statusCode : Nat
  message : JStr
  code : Option JStr
deriving DecidableEq

/-- `new AppError(401, "Unauthorized", "UNAUTHORIZED")`. -/
def unauthorizedError : AppError :=
  ⟨401, "Unauthorized".toList, some ("UNAUTHORIZED".toList)⟩

/-- `new AppError(500, "JWT secret is not configured", "JWT_MISCONFIG")`. -/
def jwtMisconfigError : AppError :=
  ⟨500, "JWT secret is not configured".toList, some ("JWT_MISCONFIG".toList)⟩

/-- `new AppError(500, "Invalid JWT claims", "JWT_INVALID_CLAIMS")`. -/
def jwtInvalidClaimsError : AppError :=
  ⟨500, "Invalid JWT claims".toList, some ("JWT_INVALID_CLAIMS".toList)⟩

/-- `new AppError(401, "Invalid credentials", "INVALID_CREDENTIALS")`
(src/src/services/auth.service.ts lines 22-25). -/
def invalidCredentialsError : AppError :=
  ⟨401, "Invalid credentials".toList, some ("INVALID_CREDENTIALS".toList)⟩

/-- The process environment as the token service reads it:
`process.env.JWT_SECRET` and `process.env.JWT_EXPIRES_IN` (each possibly
undefined). -/
structure JwtEnv where
  jwtSecret : Option JStr
  jwtExpiresIn : Option JStr
deriving DecidableEq

/-- The `JwtClaims` type of src/utils/jwt.ts: user id plus optional
email. -/
structure JwtClaims where
  sub : JStr
  email : Option JStr
deriving DecidableEq

/-- Translation of `getJwtSecret` (src/utils/jwt.ts lines 12-18):
`if (!secret) throw new AppError(500, ...)` — an absent or empty secret
throws the misconfiguration error. -/
def getJwtSecret (env : JwtEnv) : Except AppError JStr :=
  match env.jwtSecret with
  | none => .error jwtMisconfigError
  | some s => if s.isEmpty then .error jwtMisconfigError else .ok s

/-- Translation of `getJwtExpiresIn` (src/utils/jwt.ts lines 20-23):
the trimmed `JWT_EXPIRES_IN` when non-empty, else the `"7d"` default. -/
def getJwtExpiresIn (env : JwtEnv) : JStr :=
  match env.jwtExpiresIn with
  | none => "7d".toList
  | some e => if (jsTrim e).isEmpty then "7d".toList else jsTrim e

/-- Translation of `signJwt` (src/utils/jwt.ts lines 29-46).  `jwtSign`
is the `jsonwebtoken.sign` collaborator (payload, secret, expiresIn). -/
def signJwt (jwtSign : JwtClaims → JStr → JStr → JStr) (env : JwtEnv)
    (claims : JwtClaims) : Except AppError JStr :=
  if claims.sub.isEmpty then .error jwtInvalidClaimsError
  else match getJwtSecret env with
    | .error e => .error e
    | .ok secret => .ok (jwtSign ⟨claims.sub, claims.email⟩ secret (getJwtExpiresIn env))

/-- Translation of `verifyJwt` (src/utils/jwt.ts lines 52-74).
`getJwtSecret` runs OUTSIDE the `try`, so its misconfiguration error
propagates unchanged; every exception of the `try` body — `jwt.verify`
throwing (invalid signature, expiry, ...), a string payload, a missing
usable subject, or the TypeError of a property read on a null payload —
is converted by the `catch` into the one uniform
`AppError(401, "Unauthorized", "UNAUTHORIZED")` (the inner throws are
themselves 401 AppErrors that the catch re-throws as an identical fresh
value, so collapsing them into the catch is observation-equal).
`verifyJwtTry` is the try block; `verifyJwt` the whole function. -/
def verifyJwtTry {ε : Type} (jwtVerify : JStr → JStr → Except ε JSValue)
    (token secret : JStr) : Except Unit JwtClaims :=
  -- the try block of verifyJwt (src/utils/jwt.ts lines 55-70)
  match jwtVerify token secret with
  | .error _ => .error ()
  | .ok decoded =>
    match decoded with
    | .vStr _ => .error ()
    | .vNull => .error ()
    | .vUndefined => .error ()
    | _ =>
      let sub := jsGet decoded ("sub".toList)
      let userId := match sub with | .vStr s => s | _ => ([] : JStr)
      if userId.isEmpty then .error ()
      else
        let email := match jsGet decoded ("email".toList) with
          | .vStr e => some e
          | _ => none
        .ok ⟨userId, email⟩

def verifyJwt {ε : Type} (jwtVerify : JStr → JStr → Except ε JSValue)
    (env : JwtEnv) (token : JStr) : Except AppError JwtClaims :=
  match getJwtSecret env with
  | .error e => .error e
  | .ok secret =>
    match verifyJwtTry jwtVerify token secret with
    | .error _ => .error unauthorizedError
    | .ok c => .ok c

/-! ## Auth service (src/src/services/auth.service.ts) -/

/-- The `AuthUserRow` of src/src/repositories/user.repo.ts. -/
structure AuthUserRow where
  id : JStr
  email : JStr
  passwordHash : JStr
  createdAt : Option JStr
deriving DecidableEq

/-- `userRepository.findByEmail` over an explicit store (Prisma
`findUnique` on the unique `email` column: the first — only — match). -/
def findByEmail (users : List AuthUserRow) (email : JStr) : Option AuthUserRow :=
  users.find? (fun u => u.email == email)

/-- Translation of `authService.login` (src/src/services/auth.service.ts
lines 32-47): unknown email and failed password verification both throw
`invalidCredentials()`; on success the JWT is signed.  `verifyPassword`
is the bcrypt collaborator. -/
def login (users : List AuthUserRow) (verifyPassword : JStr → JStr → Bool)
    (jwtSign : JwtClaims → JStr → JStr → JStr) (env : JwtEnv)
    (email password : JStr) : Except AppError JStr :=
  match findByEmail users email with
  | none => .error invalidCredentialsError
  | some user =>
    if verifyPassword password user.passwordHash then
      signJwt jwtSign env ⟨user.id, some user.email⟩
    else .error invalidCredentialsError

/-! ## Helper lemmas -/

/-- The value `resolve` settles on: the result of the try body, with any
exception replaced by `null`. -/
def resolveValue {ε : Type} (lookup : JStr → Except ε JSValue)
    (numParse : JStr → JSNum) (now : JStr) (ip : Option JStr) :
    Option GeoSnapshot :=
  match resolveTry lookup numParse now ip with
  | .error _ => none
  | .ok v => v

theorem resolve_eq_ok {ε : Type} (lookup : JStr → Except ε JSValue)
    (numParse : JStr → JSNum) (now : JStr) (ip : Option JStr) :
    resolve lookup numParse now ip = .ok (resolveValue lookup numParse now ip) := by
  unfold resolve resolveValue
  cases resolveTry lookup numParse now ip <;> rfl

/-! Claim theorems C1, C5, C6, C9. -/

/-- Claim C1: for every input ip (null or any string) and for every
behavior of the external lookup collaborator (throwing, returning a
non-object, returning arbitrary malformed JSON), `geoService.resolve`
returns a value (a GeoSnapshot or null) and never propagates an
exception. -/
theorem resolve_never_throws {ε : Type} (lookup : JStr → Except ε JSValue)
    (numParse : JStr → JSNum) (now : JStr) (ip : Option JStr) :
    ∃ r : Option GeoSnapshot, resolve lookup numParse now ip = .ok r :=
  ⟨resolveValue lookup numParse now ip, resolve_eq_ok lookup numParse now ip⟩

/-- Claim C5: for every userId and ip, `searchAndRecord` returns exactly
the value produced by geo resolution, independent of the persistence
collaborator's behavior (the right-hand sides below do not mention
`create`), and a persistence failure is never propagated. -/
theorem searchAndRecord_persistence_independent {ε ε₂ ρ : Type}
    (lookup : JStr → Except ε JSValue) (numParse : JStr → JSNum) (now : JStr)
    (create : CreateSearchHistoryInput → Except ε₂ ρ) (userId ip : JStr) :
    searchAndRecord lookup numParse now create userId ip
      = resolve lookup numParse now (some ip) ∧
    searchAndRecord lookup numParse now create userId ip
      = .ok (resolveValue lookup numParse now (some ip)) := by
  have h : searchAndRecord lookup numParse now create userId ip
      = .ok (resolveValue lookup numParse now (some ip)) := by
    unfold searchAndRecord
    rw [resolve_eq_ok]
    cases hc : create ⟨userId, ip, resolveValue lookup numParse now (some ip)⟩ <;>
      simp [hc]
  exact ⟨h.trans (resolve_eq_ok lookup numParse now (some ip)).symm, h⟩

/-- Claim C6: `resolve` short-circuits to null on a null or empty input
and on every ip classified as private, with a result that is the same
for every lookup collaborator — the collaborator is never consulted in
these cases. -/
theorem resolve_short_circuit {ε : Type} (lookup : JStr → Except ε JSValue)
    (numParse : JStr → JSNum) (now : JStr) :
    resolve lookup numParse now none = .ok none ∧
    resolve lookup numParse now (some []) = .ok none ∧
    ∀ s : JStr, isPrivateIp s = true → resolve lookup numParse now (some s) = .ok none := by
  refine ⟨rfl, rfl, fun s h => ?_⟩
  unfold resolve resolveTry
  by_cases hs : s.isEmpty <;> simp [hs, h]

/-- Witness for C6: the private address 10.0.0.5 resolves to null even
under a collaborator that would throw if consulted. -/
theorem resolve_short_circuit_witness :
    resolve (fun _ => (Except.error () : Except Unit JSValue)) jsNumber []
      (some ("10.0.0.5".toList)) = .ok none :=
  (resolve_short_circuit (fun _ => (Except.error () : Except Unit JSValue))
    jsNumber []).2.2 ("10.0.0.5".toList) (by decide)

/-- Claim C9: `deleteMany` returns 0 without making any store call when
ids is empty (the result is the same for every repository collaborator),
and for every ids list the deletion is scoped to rows owned by userId:
the count only ever counts the user's own rows, and no error is
produced. -/
theorem deleteMany_empty_and_scoped {ε : Type}
    (repoDelete : JStr → List JStr → Except ε Nat)
    (store : List HistoryRow) (userId : JStr) (ids : List JStr) :
    deleteMany repoDelete userId [] = .ok 0 ∧
    @deleteMany Unit (fun u i => .ok (deleteSearchHistories store u i)) userId ids
      = .ok ((store.filter (fun r => r.userId == userId)).countP
          (fun r => ids.contains r.id)) := by
  refine ⟨rfl, ?_⟩
  unfold deleteMany deleteSearchHistories
  by_cases h : ids.isEmpty
  · have : ids = [] := by
      cases ids with
      | nil => rfl
      | cons a t => simp [List.isEmpty] at h
    subst this
    simp
  · simp only [h, if_false, Bool.false_eq_true, if_neg, reduceIte]
    congr 1
    rw [List.countP_eq_length_filter, List.filter_filter]
    congr 1
    exact List.filter_congr fun a _ => Bool.and_comm _ _

/-! Claim theorems C2, C8, C10. -/

/-- Counterexample to claim C2 as stated: two failing calls of
`verifyJwt` do not yield the same error kind/code — an invalid signature
(the collaborator throwing) yields the 401 UNAUTHORIZED error, while a
missing signing secret yields the distinct 500 JWT_MISCONFIG error,
because `getJwtSecret` runs outside the try/catch. -/
theorem verifyJwt_nonuniform_counterexample :
    verifyJwt (fun _ _ => (Except.error () : Except Unit JSValue))
      ⟨some ("s".toList), none⟩ ("t".toList) = .error unauthorizedError ∧
    verifyJwt (fun _ _ => (Except.error () : Except Unit JSValue))
      ⟨none, none⟩ ("t".toList) = .error jwtMisconfigError ∧
    unauthorizedError ≠ jwtMisconfigError :=
  ⟨rfl, rfl, by decide⟩

/-- Claim C2 (amended): when the signing secret loads (configured and
non-empty), every failing call of `verifyJwt` — invalid signature,
expired token, payload lacking a usable subject — yields the same
uniform 401 UNAUTHORIZED error; when the secret cannot be loaded the
failure is instead the distinct 500 JWT_MISCONFIG error, which
propagates from outside the try/catch. -/
theorem verifyJwt_failure_modes {ε : Type}
    (jwtVerify : JStr → JStr → Except ε JSValue) (env : JwtEnv) (token : JStr) :
    (∀ s : JStr, env.jwtSecret = some s → s.isEmpty = false →
      ∀ e : AppError, verifyJwt jwtVerify env token = .error e →
        e = unauthorizedError) ∧
    (env.jwtSecret = none →
      verifyJwt jwtVerify env token = .error jwtMisconfigError) := by
  constructor
  · intro s hs hne e hfail
    have hsec : getJwtSecret env = .ok s := by
      unfold getJwtSecret
      rw [hs]
      simp [hne]
    unfold verifyJwt at hfail
    rw [hsec] at hfail
    cases hb : verifyJwtTry jwtVerify token s <;> simp [hb] at hfail
    exact hfail.symm
  · intro hs
    unfold verifyJwt getJwtSecret
    rw [hs]

/-- Witness for C2 (amended), at a throwing collaborator with a present
secret (first part) and an absent secret (second part). -/
theorem verifyJwt_failure_modes_witness :
    unauthorizedError = unauthorizedError ∧
    verifyJwt (fun _ _ => (Except.error () : Except Unit JSValue))
      ⟨none, none⟩ ("t".toList) = .error jwtMisconfigError :=
  ⟨(verifyJwt_failure_modes (fun _ _ => (Except.error () : Except Unit JSValue))
      ⟨some ("s".toList), none⟩ ("t".toList)).1 ("s".toList) rfl rfl
      unauthorizedError (by rfl),
   (verifyJwt_failure_modes (fun _ _ => (Except.error () : Except Unit JSValue))
      ⟨none, none⟩ ("t".toList)).2 rfl⟩

/-- Claim C8: for every stored user set, login with a registered email
and a wrong password produces exactly the same error (kind, status and
code) as login with an email that is not registered at all. -/
theorem login_non_enumeration (users : List AuthUserRow)
    (verifyPassword : JStr → JStr → Bool) (jwtSign : JwtClaims → JStr → JStr → JStr)
    (env : JwtEnv) (email₁ pw₁ email₂ pw₂ : JStr) (u : AuthUserRow)
    (h₁ : findByEmail users email₁ = none)
    (h₂ : findByEmail users email₂ = some u)
    (h₃ : verifyPassword pw₂ u.passwordHash = false) :
    login users verifyPassword jwtSign env email₁ pw₁
      = .error invalidCredentialsError ∧
    login users verifyPassword jwtSign env email₂ pw₂
      = .error invalidCredentialsError := by
  unfold login
  rw [h₁, h₂]
  exact ⟨rfl, by simp [h₃]⟩

/-- Witness for C8: a store with one user; an unknown email and a wrong
password for the known email yield the identical error. -/
theorem login_non_enumeration_witness :
    login [⟨"u1".toList, "alice@example.com".toList, "h".toList, none⟩]
      (fun _ _ => false) (fun _ _ _ => []) ⟨none, none⟩
      ("bob@example.com".toList) ("pw".toList)
      = .error invalidCredentialsError ∧
    login [⟨"u1".toList, "alice@example.com".toList, "h".toList, none⟩]
      (fun _ _ => false) (fun _ _ _ => []) ⟨none, none⟩
      ("alice@example.com".toList) ("pw".toList)
      = .error invalidCredentialsError :=
  login_non_enumeration
    [⟨"u1".toList, "alice@example.com".toList, "h".toList, none⟩]
    (fun _ _ => false) (fun _ _ _ => []) ⟨none, none⟩
    ("bob@example.com".toList) ("pw".toList)
    ("alice@example.com".toList) ("pw".toList)
    ⟨"u1".toList, "alice@example.com".toList, "h".toList, none⟩
    (by decide) (by decide) rfl

/-- Claim C10: every non-null GeoSnapshot returned by `resolve` has its
`ip` field equal to the input argument and its `source` field equal to
the constant "ipinfo", for every payload returned by the external
collaborator (any `ip` field of the payload is ignored). -/
theorem resolve_snapshot_ip_source {ε : Type}
    (lookup : JStr → Except ε JSValue) (numParse : JStr → JSNum) (now : JStr)
    (s : JStr) (g : GeoSnapshot)
    (h : resolve lookup numParse now (some s) = .ok (some g)) :
    g.ip = s ∧ g.source = "ipinfo".toList := by
  unfold resolve resolveTry at h
  by_cases h1 : s.isEmpty = true
  · simp [h1] at h
  · by_cases h2 : isPrivateIp s = true
    · simp [h1, h2] at h
    · simp only [h1, h2] at h
      simp at h
      cases hl : lookup s with
      | error e => simp [hl] at h
      | ok raw =>
        by_cases h3 : isFalsy raw = true ∨ typeofObject raw = false
        · simp [hl, h3] at h
        · simp [hl, h3] at h
          exact ⟨by rw [← h], by rw [← h]; rfl⟩

/-- Witness for C10: a collaborator payload carrying a contradictory
`ip` field is ignored; the snapshot keeps the queried ip and the
"ipinfo" source tag. -/
theorem resolve_snapshot_ip_source_witness :
    (⟨"8.8.8.8".toList, none, some ("Mountain View".toList), none, none, none,
        none, none, none, none, none, none, none, "ipinfo".toList,
        "2026-01-01T00:00:00.000Z".toList⟩ : GeoSnapshot).ip = "8.8.8.8".toList ∧
    (⟨"8.8.8.8".toList, none, some ("Mountain View".toList), none, none, none,
        none, none, none, none, none, none, none, "ipinfo".toList,
        "2026-01-01T00:00:00.000Z".toList⟩ : GeoSnapshot).source = "ipinfo".toList :=
  resolve_snapshot_ip_source
    (fun _ => (Except.ok (JSValue.vObj
      [("ip".toList, JSValue.vStr ("9.9.9.9".toList)),
       ("city".toList, JSValue.vStr ("Mountain View".toList))]) : Except Unit JSValue))
    jsNumber ("2026-01-01T00:00:00.000Z".toList) ("8.8.8.8".toList)
    ⟨"8.8.8.8".toList, none, some ("Mountain View".toList), none, none, none,
      none, none, none, none, none, none, none, "ipinfo".toList,
      "2026-01-01T00:00:00.000Z".toList⟩
    (by rfl)

/-! Claim theorems C4. -/

/-- Counterexample to claim C4 as stated: requesting limit=0 does not
yield the default page size — `Math.max(1, Math.min(0, 100))` clamps it
to 1, so a two-row store returns one item with limit=0 but two items
(default 50) with the limit omitted. -/
theorem listByUser_limit_zero_counterexample :
    (listByUser
        [⟨"a".toList, "u".toList, "8.8.8.8".toList, none, 1⟩,
         ⟨"b".toList, "u".toList, "1.1.1.1".toList, none, 2⟩]
        ("u".toList) (some (JSNum.fin 0))).length = 1 ∧
    (listByUser
        [⟨"a".toList, "u".toList, "8.8.8.8".toList, none, 1⟩,
         ⟨"b".toList, "u".toList, "1.1.1.1".toList, none, 2⟩]
        ("u".toList) none).length = 2 ∧
    computeTake (some (JSNum.fin 0)) = 1 := by
  refine ⟨by decide, by decide, by norm_num [computeTake]⟩

/-- Claim C4 (amended): a provided finite limit is clamped into [1, 100]
(so limit=1000 yields at most 100 items and limit=0 yields 1 item, not
the default); the default page size 50 applies when the limit is omitted
or non-finite; the result never exceeds 100 items and is ordered by
creation time, most recent first. -/
theorem listByUser_clamping (store : List HistoryRow) (userId : JStr)
    (lim : Option JSNum) (q : ℚ) :
    (1 ≤ computeTake (some (.fin q)) ∧ computeTake (some (.fin q)) ≤ 100) ∧
    computeTake none = 50 ∧ computeTake (some .nan) = 50 ∧
    computeTake (some (.fin 0)) = 1 ∧
    (listByUser store userId lim).length ≤ 100 ∧
    List.Pairwise createdDesc (listByUser store userId lim) := by
  have hle : ∀ l : Option JSNum, computeTake l ≤ 100 := by
    intro l
    cases l with
    | none => norm_num [computeTake]
    | some n =>
      cases n with
      | fin q => exact max_le (by norm_num) (min_le_right _ _)
      | nan => norm_num [computeTake]
      | inf => norm_num [computeTake]
      | ninf => norm_num [computeTake]
  refine ⟨⟨le_max_left _ _, hle _⟩, rfl, rfl, by norm_num [computeTake], ?_, ?_⟩
  · calc (listByUser store userId lim).length
        ≤ (⌊computeTake lim⌋).toNat := List.length_take_le _ _
      _ ≤ 100 := by
        rw [Int.toNat_le]
        calc ⌊computeTake lim⌋ ≤ ⌊(100 : ℚ)⌋ := Int.floor_le_floor (hle lim)
          _ = 100 := by norm_num
  · exact List.Pairwise.sublist (List.take_sublist _ _)
      (List.sorted_insertionSort createdDesc _)

/-! Claim theorems C7. -/

/-- Counterexample to claim C7 as stated: `"fc0::1"` is a syntactically
valid IPv6 address — it parses to `0fc0:0:0:0:0:0:0:1`, whose first word
0x0fc0 = 4032 lies outside fc00::/7 (0xfc00-0xfdff) and fe80::/10 and
every other listed reserved range, so the spec classifies it public —
yet `isPrivateIp` marks it private, because the code matches the textual
prefix "fc".  Hence classify does not mark as private *exactly* the
well-known reserved ranges. -/
theorem classify_not_exactly_reserved :
    parseIPv6 ("fc0::1".toList) = some [0xfc0, 0, 0, 0, 0, 0, 0, 1] ∧
    specIsPrivate ("fc0::1".toList) = some false ∧
    isPrivateIp ("fc0::1".toList) = true := by
  refine ⟨by decide, by decide, by decide⟩

/-- Claim C7 (amended): classify is a pure predicate that approximates
the well-known reserved ranges by textual prefix matching: the listed
instances hold (8.8.8.8 and 1.1.1.1 are never private; 127.0.0.1,
10.0.0.5, 192.168.1.1, ::1 and fe80::1 are always private, as are
172.16.0.1 and 169.254.0.1 while 172.15.0.1 is not) — but it does not
mark as private exactly the reserved ranges: some valid public IPv6
addresses whose text begins with fc/fd/fe8-feb (e.g. fc0::1) are
classified private, and non-canonical spellings of reserved addresses
(e.g. 0:0:0:0:0:0:0:1, the loopback) are classified public. -/
theorem classify_instances :
    isPrivateIp ("8.8.8.8".toList) = false ∧
    isPrivateIp ("1.1.1.1".toList) = false ∧
    isPrivateIp ("127.0.0.1".toList) = true ∧
    isPrivateIp ("10.0.0.5".toList) = true ∧
    isPrivateIp ("192.168.1.1".toList) = true ∧
    isPrivateIp ("::1".toList) = true ∧
    isPrivateIp ("fe80::1".toList) = true ∧
    isPrivateIp ("172.16.0.1".toList) = true ∧
    isPrivateIp ("172.15.0.1".toList) = false ∧
    isPrivateIp ("169.254.0.1".toList) = true ∧
    (isPrivateIp ("fc0::1".toList) = true ∧
      specIsPrivate ("fc0::1".toList) = some false) ∧
    (isPrivateIp ("0:0:0:0:0:0:0:1".toList) = false ∧
      specIsPrivate ("0:0:0:0:0:0:0:1".toList) = some true) := by
  decide

/-! Helper lemmas for C3 (idempotence analysis of `normalizeIp`). -/

theorem dropWhile_of_rdropWhile {p : Char → Bool} (u : JStr)
    (hu : u.dropWhile p = u) :
    (u.rdropWhile p).dropWhile p = u.rdropWhile p := by
  obtain ⟨r, hr⟩ := List.rdropWhile_prefix p u
  cases ht : u.rdropWhile p with
  | nil => simp
  | cons c t' =>
    rw [ht] at hr
    have hu' : u = c :: (t' ++ r) := by rw [← hr]; simp
    have hc : p c = false := by
      have hhead := List.dropWhile_eq_self_iff.mp hu
      subst hu'
      have h0 : 0 < (c :: (t' ++ r)).length := by simp
      simpa using hhead h0
    exact List.dropWhile_cons_of_neg (by simp [hc])

theorem jsTrim_idem (s : JStr) : jsTrim (jsTrim s) = jsTrim s := by
  unfold jsTrim
  rw [dropWhile_of_rdropWhile (List.dropWhile jsWhitespace s)
    (List.dropWhile_idempotent _ _), List.rdropWhile_idempotent]

theorem mem_of_mem_jsTrim {a : Char} {s : JStr} (h : a ∈ jsTrim s) : a ∈ s := by
  unfold jsTrim List.rdropWhile at h
  rw [List.mem_reverse] at h
  have h1 : a ∈ (List.dropWhile jsWhitespace s).reverse :=
    (List.dropWhile_sublist jsWhitespace).subset h
  rw [List.mem_reverse] at h1
  exact (List.dropWhile_sublist jsWhitespace).subset h1

theorem mem_of_mem_stripV4Port {a : Char} {l : JStr}
    (h : a ∈ stripV4Port l) : a ∈ l := by
  simp only [stripV4Port] at h
  split at h
  · rw [List.mem_reverse] at h
    have h1 : a ∈ l.reverse := (List.drop_sublist _ _).subset h
    rwa [List.mem_reverse] at h1
  · exact h

theorem mem_of_mem_normPort {a : Char} {l : JStr}
    (h : a ∈ normPort l) : a ∈ l := by
  unfold normPort at h
  split at h
  · exact mem_of_mem_stripV4Port h
  · exact h

theorem not_mem_percent_normZone (l : JStr) : ('%' : Char) ∉ normZone l := by
  intro h
  have := List.mem_takeWhile_imp h
  simp at this

/-- Counterexample to claim C3 as stated: normalization is not
idempotent — the port-stripping step can apply twice, so
`normalize("1.2.3.4:80:90") = "1.2.3.4:80"` but feeding that result back
yields `"1.2.3.4"`. -/
theorem normalizeIp_not_idempotent :
    normalizeIp (normalizeIp (some ("1.2.3.4:80:90".toList)))
      ≠ normalizeIp (some ("1.2.3.4:80:90".toList)) := by
  decide

/-- Claim C3 (amended): normalization is idempotent on every input whose
normalized form is itself stable — i.e. does not again present
surrounding brackets, a (case-insensitive) `::ffff:` prefix, or a
strippable IPv4-style port suffix (the cases in which a second pass
strips again, as the counterexample input "1.2.3.4:80:90" does); every
normalized valid IP literal is of this stable shape.  `normalizeIpInput`
of validate.ts is the character-for-character identical function. -/
theorem normalizeIp_idempotent_conditional (x y : JStr)
    (hx : normalizeIp (some x) = some y)
    (hbr : (jsStartsWith y ['['] && jsEndsWith y [']']) = false)
    (hff : jsStartsWith (jsToLower y) ("::ffff:".toList) = false)
    (hport : (y.contains '.' && y.contains ':') = true → stripV4Port y = y) :
    normalizeIp (some y) = some y ∧
    normalizeIpInput (some y) = normalizeIp (some y) := by
  have key : jsTrim y = y ∧ y ≠ [] ∧ ('%' : Char) ∉ y := by
    simp only [normalizeIp] at hx
    split at hx
    · exact absurd hx (by simp)
    · split at hx
      · exact absurd hx (by simp)
      · rename_i hcond₂
        have hyE := Option.some.inj hx
        refine ⟨by rw [← hyE, jsTrim_idem], ?_, ?_⟩
        · intro h0
          exact hcond₂ (by rw [hyE, h0]; rfl)
        · intro hmem
          rw [← hyE] at hmem
          exact not_mem_percent_normZone _
            (mem_of_mem_normPort (mem_of_mem_jsTrim hmem))
  obtain ⟨hy, hne, hpc⟩ := key
  have hie : y.isEmpty = false := by
    cases y with
    | nil => exact absurd rfl hne
    | cons c t => rfl
  have htw : y.takeWhile (fun c => c ≠ '%') = y := by
    rw [List.takeWhile_eq_self_iff]
    intro a ha
    have hne' : a ≠ '%' := fun h => hpc (h ▸ ha)
    simpa using hne'
  have hb : normBracket y = y := by
    unfold normBracket
    have hbr' : (jsStartsWith y ['['] && jsEndsWith y [']']) ≠ true := by
      rw [hbr]
      exact Bool.false_ne_true
    rw [if_neg hbr']
  have hm : normMapped y = y := by
    unfold normMapped
    have hff' : jsStartsWith (jsToLower y) ("::ffff:".toList) ≠ true := by
      rw [hff]
      exact Bool.false_ne_true
    rw [if_neg hff']
  have hz : normZone y = y := htw
  have hp : normPort y = y := by
    unfold normPort
    by_cases hc : (y.contains '.' && y.contains ':') = true
    · rw [if_pos hc]
      exact hport hc
    · rw [if_neg hc]
  have hmain : normalizeIp (some y) = some y := by
    simp [normalizeIp, hy, hb, hm, hz, hp, hie]
  exact ⟨hmain, rfl⟩

/-- Witness for C3 (amended): the stable normalized form "8.8.8.8"
(obtained from the input "  8.8.8.8  ") is a fixed point. -/
theorem normalizeIp_idempotent_conditional_witness :
    normalizeIp (some ("8.8.8.8".toList)) = some ("8.8.8.8".toList) ∧
    normalizeIpInput (some ("8.8.8.8".toList))
      = normalizeIp (some ("8.8.8.8".toList)) :=
  normalizeIp_idempotent_conditional ("  8.8.8.8  ".toList) ("8.8.8.8".toList)
    (by decide) (by decide) (by decide) (by decide)

end GeoAuth
